import Mathlib

/-!
Shallow embedding of the KG Grill Kitchen pricing/totals engine
(menu-data module and storefront script), together with theorems
settling the specified properties.

Currency amounts are modelled as rationals; JS `Math.round` is modelled
as `⌊q + 1/2⌋` (round half toward +∞) and the JS `%` operator on integers
as truncated remainder (`Int.tmod`), both matching JS number semantics on
the cent-granular inputs these functions receive.
-/

namespace KG

/-- A menu item as authored in the static menu arrays (id, name, online
base price).  Description/image fields are presentation-only and omitted. -/
structure MenuItem where
  id : String
  name : String
  price : ℚ
deriving DecidableEq, Repr

/-- The `mains` array of the menu-data module. -/
def mains : List MenuItem := [
  ⟨"beef_ribs", "Beef Ribs", 16⟩,
  ⟨"beef_burgers", "Lamb Burger", 11/2⟩,
  ⟨"beef_patties", "Beef Patties", 7/2⟩,
  ⟨"chicken_wings", "Chicken Wings", 11⟩,
  ⟨"chicken_quarter", "Chicken Quarter Legs", 18⟩,
  ⟨"snapper", "Snapper Fish", 26⟩,
  ⟨"tilapia", "Tilapia (w/ Head)", 21⟩,
  ⟨"salmon", "Salmon", 21⟩,
  ⟨"chicken_kabobs", "Chicken Kabobs", 11⟩,
  ⟨"beef_kabobs", "Beef Kabobs", 11⟩,
  ⟨"shrimp_kabobs", "Shrimp Kabobs", 11⟩,
  ⟨"kg_mystery", "KG Surprise Item", 4⟩]

/-- The `sides` array of the menu-data module. -/
def sides : List MenuItem := [
  ⟨"jollof_rice", "Jollof Rice", 6⟩,
  ⟨"mac_cheese", "Mac & Cheese", 6⟩,
  ⟨"potato_wedges", "Potato Wedges", 6⟩,
  ⟨"cassava_leaf", "Cassava Leaf", 43/2⟩,
  ⟨"potato_greens", "Potato Greens & White Rice", 43/2⟩,
  ⟨"side_chicken_wing", "Chicken Wing (1 piece)", 7/2⟩,
  ⟨"side_chicken_kabob", "Chicken Kabob (1 piece)", 7/2⟩,
  ⟨"side_beef_kabob", "Beef Kabob (1 piece)", 7/2⟩,
  ⟨"side_shrimp_kabob", "Shrimp Kabob (1 piece)", 7/2⟩]

/-- A portion (plate-size) option: key, label, authored online and inline
baseline prices. -/
structure PortionOpt where
  key : String
  label : String
  onlinePrice : ℚ
  inlinePrice : ℚ
deriving DecidableEq, Repr

/-- The `portionOptions` record of the menu-data module, as an association
list from item id to its option list. -/
def portionOptions : List (String × List PortionOpt) := [
  ("beef_ribs", [⟨"1_rib", "1 rib", 16, 15⟩, ⟨"2_ribs", "2 ribs", 21, 20⟩,
    ⟨"3_ribs", "3 ribs", 26, 25⟩]),
  ("chicken_wings", [⟨"2_wings", "2 wings", 11, 10⟩, ⟨"3_wings", "3 wings", 15, 13⟩,
    ⟨"4_wings", "4 wings", 18, 15⟩]),
  ("chicken_quarter", [⟨"1_leg", "1 leg", 15, 12⟩, ⟨"2_legs", "2 legs", 23, 19⟩,
    ⟨"3_legs", "3 legs", 30, 26⟩]),
  ("chicken_kabobs", [⟨"2_kabobs", "2 kabobs", 12, 10⟩, ⟨"3_kabobs", "3 kabobs", 15, 13⟩,
    ⟨"4_kabobs", "4 kabobs", 18, 15⟩]),
  ("beef_kabobs", [⟨"2_kabobs", "2 kabobs", 12, 10⟩, ⟨"3_kabobs", "3 kabobs", 15, 13⟩,
    ⟨"4_kabobs", "4 kabobs", 18, 15⟩]),
  ("shrimp_kabobs", [⟨"2_kabobs", "2 kabobs", 12, 10⟩, ⟨"3_kabobs", "3 kabobs", 15, 13⟩,
    ⟨"4_kabobs", "4 kabobs", 18, 15⟩])]

/-- The fixed list of single-piece side item ids special-cased by
`computeInlineBasePrice`. -/
def singlePieceSideIds : List String :=
  ["side_chicken_wing", "side_chicken_kabob", "side_beef_kabob", "side_shrimp_kabob"]

/-- JS `Math.round`: nearest integer, half toward +∞. -/
def jsRound (q : ℚ) : ℤ := ⌊q + 1/2⌋

/-- `computeInlineBasePrice(basePrice, itemId)`: the baseline inline-price
derivation.  Single-piece sides are fixed at 3; otherwise a price whose
rounded cents end in 50 has the 50 cents stripped; then a price within
0.001 of 16 becomes 15; otherwise the price is unchanged. -/
def computeInlineBasePrice (basePrice : ℚ) (itemId : String) : ℚ :=
  if itemId ∈ singlePieceSideIds then 3
  else
    let cents : ℤ := jsRound (basePrice * 100)
    let price : ℚ := if cents.tmod 100 = 50 then ((cents - 50 : ℤ) : ℚ) / 100 else basePrice
    if |price - 16| < 1/1000 then 15 else price

/-- Baseline pricing triple stored for a plain item. -/
structure ItemPricing where
  inlinePrice : ℚ
  onlinePrice : ℚ
  markup : ℚ
deriving DecidableEq, Repr

/-- Baseline pricing entry stored for a portion option (includes label). -/
structure PortionPricing where
  inlinePrice : ℚ
  onlinePrice : ℚ
  markup : ℚ
  label : String
deriving DecidableEq, Repr

/-- The baseline pricing table: per-item triples and per-item/per-portion
triples. -/
structure BaselinePricing where
  items : List (String × ItemPricing)
  portions : List (String × List (String × PortionPricing))
deriving DecidableEq, Repr

/-- `buildBaselinePricing()`: derive the baseline table from the static
menu.  Plain items get inline = `computeInlineBasePrice`, online = authored
price, markup = online − inline; portion options take their authored pair. -/
def buildBaselinePricing : BaselinePricing :=
  let allItems := mains ++ sides
  { items := allItems.map fun item =>
      let inlinePrice := computeInlineBasePrice item.price item.id
      (item.id, ⟨inlinePrice, item.price, item.price - inlinePrice⟩),
    portions := portionOptions.map fun (itemId, options) =>
      (itemId, options.map fun opt =>
        (opt.key, ⟨opt.inlinePrice, opt.onlinePrice, opt.onlinePrice - opt.inlinePrice, opt.label⟩)) }

/-- The module-level `BASELINE_PRICING` constant. -/
def BASELINE_PRICING : BaselinePricing := buildBaselinePricing

/-- A value stored in an overrides map: either a finite number, or some
non-numeric/non-finite value (anything `parseFloat`/`Number.isFinite`
rejects). -/
inductive OvVal where
  | num (q : ℚ)
  | invalid
deriving DecidableEq, Repr

/-- The price-overrides document consumed by the resolver: per-item and
per-item/per-portion inline-price overrides (JS objects modelled as maps;
an absent key is `none`). -/
structure PriceOverrides where
  items : String → Option OvVal
  portions : String → String → Option OvVal

/-- The empty overrides document `{items:{}, portions:{}}`. -/
def emptyPriceOverrides : PriceOverrides := ⟨fun _ => none, fun _ _ => none⟩

/-- `readNumber(val)`: `parseFloat` then `Number.isFinite` guard; a finite
numeric value passes through, everything else becomes `null`. -/
def readNumber : Option OvVal → Option ℚ
  | some (.num q) => some q
  | _ => none

/-- Effective price triple returned by the resolver. -/
structure EffectivePrices where
  inline : ℚ
  online : ℚ
  markup : ℚ
deriving DecidableEq, Repr

/-- Baseline lookup for a plain item. -/
def lookupItemBaseline (itemId : String) : Option ItemPricing :=
  BASELINE_PRICING.items.lookup itemId

/-- Baseline lookup for an item + portion key. -/
def lookupPortionBaseline (itemId portionKey : String) : Option PortionPricing :=
  (BASELINE_PRICING.portions.lookup itemId).bind fun opts => opts.lookup portionKey

/-- `getEffectivePrices(itemId, portionKey, overrides)`: resolve effective
{inline, online, markup}.  A present finite numeric override replaces the
baseline inline price; the online price is always inline + baseline markup;
a missing baseline entry yields `null`. -/
def getEffectivePrices (itemId : String) (portionKey : Option String)
    (overrides : PriceOverrides) : Option EffectivePrices :=
  match portionKey with
  | some pk =>
    match lookupPortionBaseline itemId pk with
    | none => none
    | some base =>
      let overrideInline := readNumber (overrides.portions itemId pk)
      let inline := overrideInline.getD base.inlinePrice
      some ⟨inline, inline + base.markup, base.markup⟩
  | none =>
    match lookupItemBaseline itemId with
    | none => none
    | some base =>
      let overrideInline := readNumber (overrides.items itemId)
      let inline := overrideInline.getD base.inlinePrice
      some ⟨inline, inline + base.markup, base.markup⟩

/-! ### Override persistence (`loadPriceOverrides`)

Persisted storage content is modelled as: key missing (or empty string),
unparsable text (`JSON.parse` throws), or a parsed JSON value. -/

/-- A JSON value, as produced by `JSON.parse`. -/
inductive Json where
  | null
  | bool (b : Bool)
  | num (q : ℚ)
  | str (s : String)
  | arr (xs : List Json)
  | obj (fields : List (String × Json))
deriving Repr

/-- JS truthiness of a JSON value. -/
def Json.truthy : Json → Bool
  | .null => false
  | .bool b => b
  | .num q => decide (q ≠ 0)
  | .str s => decide (s ≠ "")
  | .arr _ => true
  | .obj _ => true

/-- JS property access `v.k` on a parsed JSON value other than `null`:
a field of an object, `undefined` (= `none`) otherwise. -/
def Json.getField : Json → String → Option Json
  | .obj fields, k => fields.lookup k
  | _, _ => none

/-- Content of the persisted storage slot for the overrides key. -/
inductive StorageContent where
  | missing
  | unparsable
  | parsed (v : Json)

/-- What `loadPriceOverrides` actually returns: an object with `items` and
`portions` fields, each an arbitrary JSON value (the code does not validate
their shape). -/
structure LoadedOverrides where
  items : Json
  portions : Json

/-- The empty overrides object `{items:{}, portions:{}}`. -/
def emptyLoadedOverrides : LoadedOverrides := ⟨.obj [], .obj []⟩

/-- `loadPriceOverrides()`: missing key or a parse failure (including the
`TypeError` thrown by `null.items`, caught by the same `try`) yields the
empty object; otherwise `parsed.items || {}` and `parsed.portions || {}`. -/
def loadPriceOverrides : StorageContent → LoadedOverrides
  | .missing => emptyLoadedOverrides
  | .unparsable => emptyLoadedOverrides
  | .parsed .null => emptyLoadedOverrides
  | .parsed v =>
    let items := match v.getField "items" with
      | some f => if f.truthy then f else .obj []
      | none => .obj []
    let portions := match v.getField "portions" with
      | some f => if f.truthy then f else .obj []
      | none => .obj []
    ⟨items, portions⟩

/-- A JSON value that is an object all of whose field values are numbers
(the expected shape of the `items` map). -/
def Json.isNumMap : Json → Bool
  | .obj fields => fields.all fun kv => match kv.2 with | .num _ => true | _ => false
  | _ => false

/-- A JSON value that is an object all of whose field values are number
maps (the expected shape of the `portions` map). -/
def Json.isNumMapMap : Json → Bool
  | .obj fields => fields.all fun kv => kv.2.isNumMap
  | _ => false

/-! ### Storefront script: channels, cart, totals -/

/-- The fulfilment channel (`orderType` radio value). -/
inductive OrderChannel where
  | pickup
  | delivery
  | inline
deriving DecidableEq, Repr

/-- A line of the in-memory cart array.  `price` is the cached effective
unit price for the active channel; `sauce`/`freeSide` are `none` when the
item is not eligible for that selection. -/
structure CartLine where
  id : String
  name : String
  quantity : ℤ
  price : ℚ
  baseOnlinePrice : ℚ
  baseInlinePrice : Option ℚ
  plateOptionKey : Option String
  plateOptionLabel : Option String
  sauce : Option String
  freeSide : Option String
deriving DecidableEq, Repr

/-- The monetary breakdown returned by `computeTotals`. -/
structure TotalsBreakdown where
  subtotal : ℚ
  fees : ℚ
  deliveryFee : ℚ
  tip : ℚ
  grand : ℚ
deriving DecidableEq, Repr

/-- `computeTotals()`: subtotal over the cart, `fees` initialised to 0 and
never reassigned, delivery fee and tip only for the delivery channel.  The
cart, the checked `orderType` radio, the cached `deliveryFee` and
`currentTipAmount` globals are passed as parameters; the
`setInlinePreviewMode(false)` UI side effect is dropped. -/
def computeTotals (cart : List CartLine) (orderType : OrderChannel)
    (deliveryFeeVal currentTipAmount : ℚ) : TotalsBreakdown :=
  let subtotal := cart.foldl (fun sum item => sum + item.price * (item.quantity : ℚ)) 0
  let fees : ℚ := 0
  let delivery := if orderType = .delivery then deliveryFeeVal else 0
  let tip := if orderType = .delivery then currentTipAmount else 0
  ⟨subtotal, fees, delivery, tip, subtotal + fees + delivery + tip⟩

/-- `getEffectivePricingForItem(item, portionKey)`: the shared resolver
first (always defined here), then the local fallbacks from the portion
table or `computeInlineBasePrice`. -/
def getEffectivePricingForItem (item : MenuItem) (portionKey : Option String)
    (overrides : PriceOverrides) : Option EffectivePrices :=
  match getEffectivePrices item.id portionKey overrides with
  | some pricing => some pricing
  | none =>
    match portionKey with
    | some pk =>
      let opts := (portionOptions.lookup item.id).getD []
      match (opts.find? fun o => o.key == pk).orElse (fun _ => opts.head?) with
      | some fallback =>
        some ⟨fallback.inlinePrice, fallback.onlinePrice,
          fallback.onlinePrice - fallback.inlinePrice⟩
      | none => none
    | none =>
      let inline := computeInlineBasePrice item.price item.id
      some ⟨inline, item.price, item.price - inline⟩

/-- Ids of mains eligible for a free side. -/
def freeSideEligibleIds : List String :=
  (mains.filter fun item =>
    !(["beef_burgers", "beef_patties", "kg_mystery"].contains item.id)).map (·.id)

/-- Ids of mains eligible for sauce selection. -/
def sauceEligibleIds : List String :=
  ["beef_ribs", "beef_burgers", "chicken_wings", "chicken_quarter",
   "snapper", "tilapia", "salmon", "chicken_kabobs", "beef_kabobs", "shrimp_kabobs"]

/-- The free-side choice ids offered in the cart select. -/
def freeSideChoiceIds : List String := ["jollof_rice", "mac_cheese", "potato_wedges"]

/-- Replace the first element of `cart` matching `p` by `f` of it (models
mutating the object found by `Array.prototype.find`). -/
def updateFirst (p : CartLine → Bool) (f : CartLine → CartLine) :
    List CartLine → List CartLine
  | [] => []
  | ci :: rest => if p ci then f ci :: rest else ci :: updateFirst p f rest

/-- `addToCart(item, portionOption)`: resolve pricing, pick the effective
price for the current channel, then either bump the quantity of the
existing line with the same id and plate-option key or push a new line.
The ordering-closed guard, Grill-Points award and UI refresh calls are
out of scope; the cart, channel and override cache are parameters. -/
def addToCart (cart : List CartLine) (item : MenuItem) (portionOption : Option PortionOpt)
    (orderType : OrderChannel) (overrides : PriceOverrides) : List CartLine :=
  let pricing := getEffectivePricingForItem item (portionOption.map (·.key)) overrides
  let baseOnlinePrice := (pricing.map (·.online)).getD item.price
  let baseInlinePrice0 : Option ℚ := pricing.map (·.inline)
  let plateOptionKey := portionOption.map (·.key)
  let plateOptionLabel := portionOption.map (·.label)
  let displayName := match portionOption with
    | some po => item.name ++ " – " ++ po.label
    | none => item.name
  let baseInlinePrice := match portionOption with
    | some _ => baseInlinePrice0
    | none => some (baseInlinePrice0.getD (computeInlineBasePrice baseOnlinePrice item.id))
  let effectivePrice :=
    if orderType = .inline then
      match baseInlinePrice with
      | some v => v
      | none => baseOnlinePrice
    else baseOnlinePrice
  if cart.any fun ci => ci.id == item.id && ci.plateOptionKey == plateOptionKey then
    updateFirst (fun ci => ci.id == item.id && ci.plateOptionKey == plateOptionKey)
      (fun existing => { existing with
        quantity := existing.quantity + 1,
        price := effectivePrice,
        baseOnlinePrice := baseOnlinePrice,
        baseInlinePrice := baseInlinePrice }) cart
  else
    let cartItem : CartLine :=
      { id := item.id, name := displayName, quantity := 1, price := effectivePrice,
        baseOnlinePrice := baseOnlinePrice, baseInlinePrice := baseInlinePrice,
        plateOptionKey := plateOptionKey, plateOptionLabel := plateOptionLabel,
        sauce := if sauceEligibleIds.contains item.id then some "none" else none,
        freeSide := if freeSideEligibleIds.contains item.id then
          some (freeSideChoiceIds.head?.getD "") else none }
    cart ++ [cartItem]

/-- `updateQuantity(itemId, delta)`: `findIndex` on the item id alone, add
`delta` to that line's quantity, and splice the line out when the result
is ≤ 0.  A cart without a matching line is returned unchanged. -/
def updateQuantity (cart : List CartLine) (itemId : String) (delta : ℤ) : List CartLine :=
  match cart with
  | [] => []
  | ci :: rest =>
    if ci.id == itemId then
      let q := ci.quantity + delta
      if q ≤ 0 then rest else { ci with quantity := q } :: rest
    else ci :: updateQuantity rest itemId delta

/-! ### Delivery distance (haversine), over the real numbers -/

/-- The local `toRad` helper: degrees to radians. -/
noncomputable def toRad (deg : ℝ) : ℝ := deg * Real.pi / 180

/-- JS `Math.atan2(y, x)` as the standard two-argument arctangent. -/
noncomputable def jsAtan2 (y x : ℝ) : ℝ :=
  if 0 < x then Real.arctan (y / x)
  else if x < 0 ∧ 0 ≤ y then Real.arctan (y / x) + Real.pi
  else if x < 0 ∧ y < 0 then Real.arctan (y / x) - Real.pi
  else if x = 0 ∧ 0 < y then Real.pi / 2
  else if x = 0 ∧ y < 0 then -(Real.pi / 2)
  else 0

/-- `computeDistanceMiles(lat1, lon1, lat2, lon2)`: haversine great-circle
distance, Earth radius 6371 km, converted to miles by 0.621371. -/
noncomputable def computeDistanceMiles (lat1 lon1 lat2 lon2 : ℝ) : ℝ :=
  let R : ℝ := 6371
  let dLat := toRad (lat2 - lat1)
  let dLon := toRad (lon2 - lon1)
  let a := Real.sin (dLat / 2) ^ 2 +
    Real.cos (toRad lat1) * Real.cos (toRad lat2) * Real.sin (dLon / 2) ^ 2
  let c := 2 * jsAtan2 (Real.sqrt a) (Real.sqrt (1 - a))
  let distanceKm := R * c
  distanceKm * (621371 / 1000000)

/-- `computeDeliveryFee(distanceMiles)`: base fee 3.00 plus 1.00 per mile. -/
noncomputable def computeDeliveryFee (distanceMiles : ℝ) : ℝ :=
  let baseFee : ℝ := 3
  let perMile : ℝ := 1
  baseFee + distanceMiles * perMile

/-! ### Spec-side definitions (for refinement comparisons) -/

/-- The baseline inline-price derivation as the spec words it: a fixed 3.00
for the single-piece side items regardless of price; otherwise a price whose
fractional part is exactly .50 has the 50 cents stripped; then a price equal
to 16.00 within the floating epsilon 0.001 becomes 15.00; otherwise the
online price is unchanged. -/
def inlineBasePriceSpec (price : ℚ) (itemId : String) : ℚ :=
  if itemId ∈ singlePieceSideIds then 3
  else
    let stripped := if Int.fract price = 1/2 then price - 1/2 else price
    if |stripped - 16| < 1/1000 then 15 else stripped

end KG

namespace KG

/-! ### Claims -/

/-- The cart of spec scenario 9: one line of `chicken_wings`, portion
`3_wings`, quantity 2, priced at the online portion price 15 (subtotal 30). -/
def scenarioCart : List CartLine :=
  [⟨"chicken_wings", "Chicken Wings – 3 wings", 2, 15, 15, some 13,
    some "3_wings", some "3 wings", some "none", some "jollof_rice"⟩]

/-- C1: `computeTotals` leaves `fees` at 0 on every channel — including the
pickup channel on a subtotal-30 cart, where the claim expects fees = 3.00.
The 10% service/tax rate appears elsewhere (tip base, payment preview) but
is never applied inside `computeTotals`. -/
theorem computeTotals_fees_always_zero :
    (computeTotals scenarioCart .pickup 0 0).subtotal = 30 ∧
    (computeTotals scenarioCart .pickup 0 0).fees = 0 ∧
    ∀ (cart : List CartLine) (ch : OrderChannel) (dfee tip : ℚ),
      (computeTotals cart ch dfee tip).fees = 0 :=
  ⟨by norm_num [computeTotals, scenarioCart], rfl, fun _ _ _ _ => rfl⟩

/-- C4: `computeTotals` passes the supplied delivery fee and tip through on
the delivery channel and returns 0 for both on the pickup and inline
channels, whatever values are cached. -/
theorem computeTotals_delivery_only (cart : List CartLine) (dfee tip : ℚ) :
    (computeTotals cart .delivery dfee tip).deliveryFee = dfee ∧
    (computeTotals cart .delivery dfee tip).tip = tip ∧
    (computeTotals cart .pickup dfee tip).deliveryFee = 0 ∧
    (computeTotals cart .pickup dfee tip).tip = 0 ∧
    (computeTotals cart .inline dfee tip).deliveryFee = 0 ∧
    (computeTotals cart .inline dfee tip).tip = 0 :=
  ⟨rfl, rfl, rfl, rfl, rfl, rfl⟩

/-- Witness for C4 at a concrete cart and supplied values 5.00 / 2.00. -/
theorem computeTotals_delivery_only_witness :
    (computeTotals scenarioCart .delivery 5 2).deliveryFee = 5 ∧
    (computeTotals scenarioCart .delivery 5 2).tip = 2 ∧
    (computeTotals scenarioCart .pickup 5 2).deliveryFee = 0 ∧
    (computeTotals scenarioCart .pickup 5 2).tip = 0 ∧
    (computeTotals scenarioCart .inline 5 2).deliveryFee = 0 ∧
    (computeTotals scenarioCart .inline 5 2).tip = 0 :=
  computeTotals_delivery_only scenarioCart 5 2

/-- C5: every breakdown produced by `computeTotals` satisfies
grand = subtotal + fees + deliveryFee + tip exactly. -/
theorem computeTotals_grand_identity (cart : List CartLine) (ch : OrderChannel)
    (dfee tip : ℚ) :
    (computeTotals cart ch dfee tip).grand =
      (computeTotals cart ch dfee tip).subtotal + (computeTotals cart ch dfee tip).fees +
      (computeTotals cart ch dfee tip).deliveryFee + (computeTotals cart ch dfee tip).tip :=
  rfl

/-- Witness for C5 on the concrete scenario cart under delivery. -/
theorem computeTotals_grand_identity_witness :
    (computeTotals scenarioCart .delivery 5 2).grand =
      (computeTotals scenarioCart .delivery 5 2).subtotal +
      (computeTotals scenarioCart .delivery 5 2).fees +
      (computeTotals scenarioCart .delivery 5 2).deliveryFee +
      (computeTotals scenarioCart .delivery 5 2).tip :=
  computeTotals_grand_identity scenarioCart .delivery 5 2

/-- First line of the C8 failing cart: `chicken_wings`, portion `2_wings`. -/
def wingsLine1 : CartLine :=
  ⟨"chicken_wings", "Chicken Wings – 2 wings", 1, 11, 11, some 10,
    some "2_wings", some "2 wings", some "none", some "jollof_rice"⟩

/-- Second line of the C8 failing cart: same item, portion `3_wings`. -/
def wingsLine2 : CartLine :=
  ⟨"chicken_wings", "Chicken Wings – 3 wings", 1, 15, 15, some 13,
    some "3_wings", some "3 wings", some "none", some "jollof_rice"⟩

/-- C8: `updateQuantity` locates a line by item id alone, so with two lines
of the same item under different portion keys, the quantity button of the
second (`3_wings`) line — wired by `renderCart` to `updateQuantity` with
just the item id — increments the first (`2_wings`) line instead. -/
theorem updateQuantity_ignores_portionKey :
    updateQuantity [wingsLine1, wingsLine2] "chicken_wings" 1 =
      [{ wingsLine1 with quantity := 2 }, wingsLine2] := by
  simp [updateQuantity, wingsLine1, wingsLine2]

/-- The baseline markup authored for an item or item+portion key. -/
def baselineMarkup (itemId : String) (portionKey : Option String) : Option ℚ :=
  match portionKey with
  | some pk => (lookupPortionBaseline itemId pk).map (·.markup)
  | none => (lookupItemBaseline itemId).map (·.markup)

/-- C2: whenever the resolver returns a triple, its online price minus its
inline price equals the baseline markup of that key — for every overrides
map, including any inline override value. -/
theorem resolver_markup_invariance (itemId : String) (portionKey : Option String)
    (overrides : PriceOverrides) (r : EffectivePrices)
    (h : getEffectivePrices itemId portionKey overrides = some r) :
    r.online - r.inline = r.markup ∧ baselineMarkup itemId portionKey = some r.markup := by
  cases portionKey with
  | some pk =>
    cases hb : lookupPortionBaseline itemId pk with
    | none => simp [getEffectivePrices, hb] at h
    | some base =>
      simp only [getEffectivePrices, hb] at h
      obtain rfl := Option.some.inj h
      exact ⟨by ring, by simp [baselineMarkup, hb]⟩
  | none =>
    cases hb : lookupItemBaseline itemId with
    | none => simp [getEffectivePrices, hb] at h
    | some base =>
      simp only [getEffectivePrices, hb] at h
      obtain rfl := Option.some.inj h
      exact ⟨by ring, by simp [baselineMarkup, hb]⟩

/-- Overrides map holding a single portion override:
`chicken_wings`/`3_wings` ↦ 12. -/
def wingsPortionOverride : PriceOverrides :=
  ⟨fun _ => none,
   fun itemId pk =>
     if itemId = "chicken_wings" ∧ pk = "3_wings" then some (.num 12) else none⟩

/-- Witness for C2: with an inline override of 12 on `chicken_wings`
`3_wings`, the resolver returns ⟨12, 14, 2⟩ and 14 − 12 equals the
baseline markup 2. -/
theorem resolver_markup_invariance_witness :
    (⟨12, 14, 2⟩ : EffectivePrices).online - (⟨12, 14, 2⟩ : EffectivePrices).inline =
      (⟨12, 14, 2⟩ : EffectivePrices).markup ∧
    baselineMarkup "chicken_wings" (some "3_wings") =
      some (⟨12, 14, 2⟩ : EffectivePrices).markup :=
  resolver_markup_invariance "chicken_wings" (some "3_wings")
    wingsPortionOverride ⟨12, 14, 2⟩ (by
      simp [getEffectivePrices, lookupPortionBaseline, BASELINE_PRICING, buildBaselinePricing,
        portionOptions, List.lookup, readNumber, wingsPortionOverride]
      norm_num)

/-- Set a per-item inline override, leaving all other entries alone. -/
def setItemOverride (x : String) (v : OvVal) (ov : PriceOverrides) : PriceOverrides :=
  ⟨fun i => if i = x then some v else ov.items i, ov.portions⟩

/-- C3: a present finite numeric item override becomes exactly the effective
inline price of that item (online following as inline + markup); the
resolver's result for every other item is unchanged by setting it; and when
the stored override reads as non-numeric or is absent, the baseline inline
price is used. -/
theorem resolver_override_precedence (x : String) (base : ItemPricing)
    (ov : PriceOverrides) (q : ℚ) (hbase : lookupItemBaseline x = some base) :
    getEffectivePrices x none (setItemOverride x (.num q) ov) =
      some ⟨q, q + base.markup, base.markup⟩ ∧
    (∀ (y : String) (pk : Option String), y ≠ x →
      getEffectivePrices y pk (setItemOverride x (.num q) ov) =
        getEffectivePrices y pk ov) ∧
    (readNumber (ov.items x) = none →
      getEffectivePrices x none ov =
        some ⟨base.inlinePrice, base.inlinePrice + base.markup, base.markup⟩) := by
  refine ⟨?_, ?_, ?_⟩
  · simp [getEffectivePrices, hbase, setItemOverride, readNumber]
  · intro y pk hy
    cases pk with
    | some pk => rfl
    | none => simp [getEffectivePrices, setItemOverride, hy]
  · intro hnone
    simp [getEffectivePrices, hbase, hnone]

/-- Witness for C3: overriding `chicken_wings` to 7 yields inline 7 for it,
leaves `beef_ribs` untouched, and with no override stored the baseline
inline price 11 is returned. -/
theorem resolver_override_precedence_witness :
    getEffectivePrices "chicken_wings" none
        (setItemOverride "chicken_wings" (.num 7) emptyPriceOverrides) =
      some ⟨7, 7 + (0 : ℚ), 0⟩ ∧
    getEffectivePrices "beef_ribs" none
        (setItemOverride "chicken_wings" (.num 7) emptyPriceOverrides) =
      getEffectivePrices "beef_ribs" none emptyPriceOverrides ∧
    getEffectivePrices "chicken_wings" none emptyPriceOverrides =
      some ⟨11, 11 + (0 : ℚ), 0⟩ :=
  have h := resolver_override_precedence "chicken_wings" ⟨11, 11, 0⟩
    emptyPriceOverrides 7 (by
      simp [lookupItemBaseline, BASELINE_PRICING, buildBaselinePricing, mains, sides,
        List.lookup, computeInlineBasePrice, jsRound, singlePieceSideIds]
      norm_num [show Int.tmod 1100 100 = 0 from by decide])
  ⟨h.1, h.2.1 "beef_ribs" none (by simp), h.2.2 rfl⟩

/-- `jsRound` is the identity on integers. -/
theorem jsRound_intCast (z : ℤ) : jsRound ((z : ℚ)) = z := by
  unfold jsRound
  rw [Int.floor_int_add]
  norm_num

/-- On a cent-granular price `n / 100`, the rounded-cents value the code
computes is exactly `n`. -/
theorem jsRound_cents (n : ℕ) : jsRound ((n : ℚ) / 100 * 100) = (n : ℤ) := by
  rw [show (n : ℚ) / 100 * 100 = ((n : ℤ) : ℚ) by push_cast; ring]
  exact jsRound_intCast n

/-- C6: on every cent-granular online price, `computeInlineBasePrice`
agrees with the spec-worded derivation (fixed 3.00 for single-piece sides;
strip an exact .50 fraction; 16.00-within-epsilon becomes 15.00; otherwise
unchanged); in particular 21.50 yields 21.00, 11.00 yields 11.00, a
single-piece side yields 3.00, and a plain 16.00 yields 15.00. -/
theorem computeInlineBasePrice_matches_spec :
    (∀ (n : ℕ) (itemId : String),
      computeInlineBasePrice ((n : ℚ) / 100) itemId =
        inlineBasePriceSpec ((n : ℚ) / 100) itemId) ∧
    computeInlineBasePrice (43/2) "cassava_leaf" = 21 ∧
    computeInlineBasePrice 11 "chicken_wings" = 11 ∧
    computeInlineBasePrice (7/2) "side_chicken_wing" = 3 ∧
    computeInlineBasePrice 16 "beef_ribs" = 15 := by
  refine ⟨?_, ?_, ?_, ?_, ?_⟩
  · intro n itemId
    by_cases hid : itemId ∈ singlePieceSideIds
    · simp [computeInlineBasePrice, inlineBasePriceSpec, hid]
    · have hfract : Int.fract ((n : ℚ) / 100) = ((n % 100 : ℕ) : ℚ) / 100 :=
        Int.fract_div_natCast_eq_div_natCast_mod
      have htmod : ((n : ℤ)).tmod 100 = ((n % 100 : ℕ) : ℤ) := by
        exact_mod_cast (Int.ofNat_tmod n 100).symm
      by_cases hmod : n % 100 = 50
      · have hc1 : ((n : ℤ)).tmod 100 = 50 := by rw [htmod, hmod]; norm_num
        have hc2 : Int.fract ((n : ℚ) / 100) = 1/2 := by rw [hfract, hmod]; norm_num
        simp only [computeInlineBasePrice, inlineBasePriceSpec, if_neg hid, jsRound_cents,
          if_pos hc1, if_pos hc2]
        rw [show (((n : ℤ) - 50 : ℤ) : ℚ) / 100 = (n : ℚ) / 100 - 1/2 by push_cast; ring]
      · have hc1 : ¬ ((n : ℤ)).tmod 100 = 50 := by
          rw [htmod]
          exact_mod_cast hmod
        have hc2 : ¬ Int.fract ((n : ℚ) / 100) = 1/2 := by
          rw [hfract]
          intro h
          have hx : ((n % 100 : ℕ) : ℚ) = 50 := by linarith
          exact hmod (by exact_mod_cast hx)
        simp only [computeInlineBasePrice, inlineBasePriceSpec, if_neg hid, jsRound_cents,
          if_neg hc1, if_neg hc2]
  · simp [computeInlineBasePrice, singlePieceSideIds, jsRound]
    norm_num [show Int.tmod 2150 100 = 50 from by decide]
  · simp [computeInlineBasePrice, singlePieceSideIds, jsRound]
    norm_num [show Int.tmod 1100 100 = 0 from by decide]
  · simp [computeInlineBasePrice, singlePieceSideIds]
  · simp [computeInlineBasePrice, singlePieceSideIds, jsRound]
    norm_num [show Int.tmod 1600 100 = 0 from by decide]

/-- C7: adding the same item twice with the same portion key (or twice with
no portion) merges into a single cart line of quantity 2, while adding it
under two different portion keys produces two distinct lines. -/
theorem cart_line_identity (item : MenuItem) (po po1 po2 : PortionOpt)
    (ot : OrderChannel) (ov : PriceOverrides) (hkeys : po1.key ≠ po2.key) :
    ((addToCart (addToCart [] item (some po) ot ov) item (some po) ot ov).map
        (fun l => (l.id, l.plateOptionKey, l.quantity)) = [(item.id, some po.key, 2)]) ∧
    ((addToCart (addToCart [] item none ot ov) item none ot ov).map
        (fun l => (l.id, l.plateOptionKey, l.quantity)) = [(item.id, none, 2)]) ∧
    (addToCart (addToCart [] item (some po1) ot ov) item (some po2) ot ov).length = 2 := by
  refine ⟨?_, ?_, ?_⟩
  · simp [addToCart, updateFirst]
  · simp [addToCart, updateFirst]
  · simp [addToCart, updateFirst, hkeys]

/-- The `chicken_wings` menu item, for concrete witnesses. -/
def chickenWingsItem : MenuItem := ⟨"chicken_wings", "Chicken Wings", 11⟩

/-- The `2_wings` portion option of `chicken_wings`. -/
def wings2Opt : PortionOpt := ⟨"2_wings", "2 wings", 11, 10⟩

/-- The `3_wings` portion option of `chicken_wings`. -/
def wings3Opt : PortionOpt := ⟨"3_wings", "3 wings", 15, 13⟩

/-- Witness for C7 on `chicken_wings` with portions `2_wings`/`3_wings`. -/
theorem cart_line_identity_witness :
    ((addToCart (addToCart [] chickenWingsItem (some wings3Opt) .pickup emptyPriceOverrides)
        chickenWingsItem (some wings3Opt) .pickup emptyPriceOverrides).map
        (fun l => (l.id, l.plateOptionKey, l.quantity)) =
      [(chickenWingsItem.id, some wings3Opt.key, 2)]) ∧
    ((addToCart (addToCart [] chickenWingsItem none .pickup emptyPriceOverrides)
        chickenWingsItem none .pickup emptyPriceOverrides).map
        (fun l => (l.id, l.plateOptionKey, l.quantity)) =
      [(chickenWingsItem.id, none, 2)]) ∧
    (addToCart (addToCart [] chickenWingsItem (some wings2Opt) .pickup emptyPriceOverrides)
        chickenWingsItem (some wings3Opt) .pickup emptyPriceOverrides).length = 2 :=
  cart_line_identity chickenWingsItem wings3Opt wings2Opt wings3Opt .pickup
    emptyPriceOverrides (by simp [wings2Opt, wings3Opt])

/-- A parsed JSON value of the expected overrides-document shape: an object
with an `items` field that is a number map and a `portions` field that is a
map of number maps. -/
def wellFormedOverridesDoc (v : Json) : Bool :=
  match v.getField "items", v.getField "portions" with
  | some its, some ports => its.isNumMap && ports.isNumMapMap
  | _, _ => false

/-- The malformed stored document `{"items": 5}`. -/
def badOverridesDoc : Json := .obj [("items", .num 5)]

/-- C9 counterexample: `{"items": 5}` is JSON of an unexpected shape, yet
`loadPriceOverrides` does not return the empty overrides object — the code
only replaces a falsy `items`/`portions` field by `{}`, so the truthy
non-map value 5 is passed through. -/
theorem loadPriceOverrides_shape_counterexample :
    wellFormedOverridesDoc badOverridesDoc = false ∧
    (loadPriceOverrides (.parsed badOverridesDoc)).items = .num 5 ∧
    loadPriceOverrides (.parsed badOverridesDoc) ≠ emptyLoadedOverrides := by
  refine ⟨rfl, rfl, ?_⟩
  intro h
  exact Json.noConfusion (congrArg LoadedOverrides.items h)

/-- C9 (amended): `loadPriceOverrides` never throws; a missing key,
unparsable text, or parsed JSON `null` yields the empty overrides object,
and a well-formed overrides document yields exactly its `items` and
`portions` maps.  (A truthy non-map `items`/`portions` value would be
passed through as-is; see the counterexample.) -/
theorem loadPriceOverrides_fallback :
    loadPriceOverrides .missing = emptyLoadedOverrides ∧
    loadPriceOverrides .unparsable = emptyLoadedOverrides ∧
    loadPriceOverrides (.parsed .null) = emptyLoadedOverrides ∧
    ∀ (v its ports : Json), v.getField "items" = some its → its.isNumMap = true →
      v.getField "portions" = some ports → ports.isNumMapMap = true →
      loadPriceOverrides (.parsed v) = ⟨its, ports⟩ := by
  refine ⟨rfl, rfl, rfl, ?_⟩
  intro v its ports h1 h2 h3 h4
  have hits : its.truthy = true := by
    cases its <;> first | rfl | simp [Json.isNumMap] at h2
  have hports : ports.truthy = true := by
    cases ports <;> first | rfl | simp [Json.isNumMapMap] at h4
  cases v with
  | null => simp [Json.getField] at h1
  | bool b => simp [Json.getField] at h1
  | num q => simp [Json.getField] at h1
  | str s => simp [Json.getField] at h1
  | arr xs => simp [Json.getField] at h1
  | obj fields => simp [loadPriceOverrides, h1, h3, hits, hports]

/-- A well-formed stored overrides document. -/
def goodOverridesDoc : Json :=
  .obj [("items", .obj [("chicken_wings", .num 9)]), ("portions", .obj [])]

/-- Witness for C9 (amended) on a concrete well-formed document. -/
theorem loadPriceOverrides_fallback_witness :
    loadPriceOverrides (.parsed goodOverridesDoc) =
      ⟨.obj [("chicken_wings", .num 9)], .obj []⟩ :=
  loadPriceOverrides_fallback.2.2.2 goodOverridesDoc
    (.obj [("chicken_wings", .num 9)]) (.obj []) rfl rfl rfl rfl

/-- C10: `computeDistanceMiles` is symmetric in its two coordinate pairs
and zero on identical coordinates. -/
theorem computeDistanceMiles_symm_zero :
    (∀ lat1 lon1 lat2 lon2 : ℝ,
      computeDistanceMiles lat1 lon1 lat2 lon2 = computeDistanceMiles lat2 lon2 lat1 lon1) ∧
    (∀ lat lon : ℝ, computeDistanceMiles lat lon lat lon = 0) := by
  have hsin : ∀ x y : ℝ,
      Real.sin (toRad (x - y) / 2) ^ 2 = Real.sin (toRad (y - x) / 2) ^ 2 := by
    intro x y
    rw [show toRad (x - y) / 2 = -(toRad (y - x) / 2) by unfold toRad; ring, Real.sin_neg]
    ring
  constructor
  · intro lat1 lon1 lat2 lon2
    simp only [computeDistanceMiles]
    rw [hsin lat2 lat1, hsin lon2 lon1,
      mul_comm (Real.cos (toRad lat1)) (Real.cos (toRad lat2))]
  · intro lat lon
    simp [computeDistanceMiles, toRad, jsAtan2, Real.arctan_zero]

end KG
